import Mathlib

/-!
Shallow embedding of `src/app.py`, a one-route Flask application:

    from flask import Flask
    app = Flask(__name__)

    @app.route("/")
    def home():
        return "🎉 Skincare AI Backend is Running!"

    if __name__ == "__main__":
        app.run(debug=True)

The application code is embedded faithfully: the constant `greeting`, the
handler `home`, the route table of `app`, and the main guard.  Behavior that
belongs to the hosting framework (Flask) rather than to the repository —
wrapping a handler's string return value into a 200 response with a default
content type, and the fallback for unmatched requests — is modelled from the
specification and marked as such in doc comments.
-/

/-- The constant string literal returned by `home` in `src/app.py`. -/
def greeting : String := "🎉 Skincare AI Backend is Running!"

/-- The handler `home` of `src/app.py`: it takes no parameters and returns
the constant `greeting`.  It does not receive or inspect any request data. -/
def home : String := greeting

/-- The HTTP method string used when registering and matching the route. -/
def methodGet : String := "GET"

/-- The path of the single registered route. -/
def rootPath : String := "/"

/-- An incoming HTTP request, as the server could observe it: method, path,
query parameters, headers and body. -/
structure Request where
  method : String
  path : String
  query : List (String × String)
  headers : List (String × String)
  body : String

/-- An HTTP response: status code, body string and content type header. -/
structure HttpResponse where
  status : Nat
  body : String
  contentType : String

/-- Names of the handler functions defined by the application.  `src/app.py`
defines exactly one, `home`. -/
inductive Handler where
  | home

/-- The string a named handler returns when invoked. -/
def handlerFun : Handler → String
  | Handler.home => home

/-- A registered route: a path, the allowed HTTP methods, and the handler. -/
structure Route where
  path : String
  methods : List String
  handler : Handler

/-- A Flask application object, reduced to what the repository puts into it:
its table of registered routes. -/
structure FlaskApp where
  routes : List Route

/-- The route registered by the decorator `@app.route("/")` in `src/app.py`:
path `/`, method GET, handler `home`. -/
def rootRoute : Route := Route.mk rootPath [methodGet] Handler.home

/-- The module-level application object `app = Flask(__name__)` of
`src/app.py`, after the single route decorator has run. -/
def app : FlaskApp := FlaskApp.mk [rootRoute]

/-- Modelled from the spec: the hosting framework's default content type for a
handler returning a plain string ("content type text/plain or text/html
depending on framework default"); Flask's default for a string return is
text/html with a UTF-8 charset.  The framework code is not part of the
repository and the application never sets a content type itself. -/
def flaskDefaultContentType : String := "text/html; charset=utf-8"

/-- Modelled from the spec: the hosting framework wraps a handler's string
return value into a response with status 200, that string as the body, and
the framework's default content type.  This wrapping is framework behavior,
not application code. -/
def stringToResponse (s : String) : HttpResponse :=
  HttpResponse.mk 200 s flaskDefaultContentType

/-- The outcome of dispatching a request: either an application response
(a matched route's handler ran) or the hosting framework's default behavior
for unmatched requests (not found / method not allowed), which the
application does not define. -/
inductive Reply where
  | app (resp : HttpResponse)
  | frameworkDefault (req : Request)

/-- Look up the first registered route whose path equals the request path and
whose method list contains the request method. -/
def findRoute : List Route → Request → Option Route
  | [], _ => none
  | r :: rest, req =>
      if req.path = r.path ∧ req.method ∈ r.methods then some r
      else findRoute rest req

/-- Dispatch a request against an application: a matched route's handler runs
and its string is wrapped into a response; otherwise the framework's default
behavior applies. -/
def dispatch (a : FlaskApp) (req : Request) : Reply :=
  match findRoute a.routes req with
  | some r => Reply.app (stringToResponse (handlerFun r.handler))
  | none => Reply.frameworkDefault req

/-- The response produced for a matched `GET /` request. -/
def rootResponse : HttpResponse := stringToResponse home

/-- The observable state of the server process around a request: a log of
emitted effect records (writes, outbound calls, log lines).  The handler in
`src/app.py` consists of a single return of a string literal, so handling a
request performs no effect on this state. -/
structure ServerState where
  log : List String

/-- Handling one request: the reply is computed by `dispatch` and, since the
handler body is a single return of a literal with no statements, the ambient
state is left unchanged. -/
def handleStep (s : ServerState) (req : Request) : Reply × ServerState :=
  (dispatch app req, s)

/-- Serve a sequence of requests, threading the server state, and collect the
replies in order. -/
def runServer : ServerState → List Request → List Reply × ServerState
  | s, [] => ([], s)
  | s, req :: rest =>
      let first := handleStep s req
      let tail := runServer first.2 rest
      (first.1 :: tail.1, tail.2)

/-- A Python exception surfacing from a handler. -/
inductive PyExn where
  | exn (message : String)

/-- The body of `home` as a fallible Python computation: it consists of a
single `return` of a string literal, which cannot raise, so it is the pure
successful computation of `home`. -/
def homeBody : Except PyExn String := Except.ok home

/-- Whether a handler computation raised an exception. -/
def raisedExn : Except PyExn String → Bool
  | Except.ok _ => false
  | Except.error _ => true

/-- The value of `__name__` when a Python module runs as the main program. -/
def mainDunder : String := "__main__"

/-- The configuration the entry point passes to the server runtime.  The call
`app.run(debug=True)` in `src/app.py` supplies exactly one setting: the debug
toggle. -/
structure ServerLaunch where
  debug : Bool

/-- The module's main guard as a function of the process inputs: the command
line, the environment, and the value of `__name__`.  `src/app.py` reads
neither the command line nor the environment; when `__name__` equals
`"__main__"` it launches the server with `debug=True`, otherwise it launches
nothing. -/
def moduleMain (_argv : List String) (_env : List (String × String))
    (nameVar : String) : Option ServerLaunch :=
  if nameVar = mainDunder then some (ServerLaunch.mk true) else none

/-- The state of the module after it is processed: the constructed application
object and whether the development server was started. -/
structure ModuleState where
  app : FlaskApp
  serverStarted : Bool

/-- Importing `src/app.py`: module-level code constructs the Flask application
object and registers the single route; it does not start the server. -/
def importModule : ModuleState := ModuleState.mk app false

/-- Processing the module with a given value of `__name__`: import-time work
always runs; `app.run` executes only under the main guard. -/
def runModule (nameVar : String) : ModuleState :=
  if nameVar = mainDunder then ModuleState.mk importModule.app true
  else importModule

/-- Character-list prefix test. -/
def leadsChars : List Char → List Char → Bool
  | [], _ => true
  | _ :: _, [] => false
  | a :: as, b :: bs => a == b && leadsChars as bs

/-- Character-list substring test. -/
def hasSubChars : List Char → List Char → Bool
  | pat, [] => leadsChars pat []
  | pat, c :: cs => leadsChars pat (c :: cs) || hasSubChars pat cs

/-- String substring test, via the underlying character lists. -/
def hasSub (pat s : String) : Bool := hasSubChars pat.toList s.toList

/-- String prefix test, via the underlying character lists. -/
def leads (pat s : String) : Bool := leadsChars pat.toList s.toList

/-- The celebratory party-popper emoji appearing in `greeting`. -/
def partyChar : Char := '🎉'

/-- The word of `greeting` identifying the service as running. -/
def runningText : String := "Running"

/-- The text/html mime type. -/
def textHtml : String := "text/html"

/-- The text/plain mime type. -/
def textPlain : String := "text/plain"

/-- The empty request body. -/
def emptyBody : String := ""

/-- A bare `GET /` request with no query, headers or body. -/
def getRootReq : Request := Request.mk methodGet rootPath [] [] emptyBody

/-- A `GET /` request carrying query parameters, headers and a body. -/
def dataRootReq : Request :=
  Request.mk methodGet rootPath [(textHtml, textPlain)] [(textPlain, textHtml)]
    greeting

/-- The POST method string, for an unregistered-method request. -/
def methodPost : String := "POST"

/-- A `POST /` request, whose method matches no registered route. -/
def postRootReq : Request := Request.mk methodPost rootPath [] [] emptyBody

/-- A plausible value of `__name__` when the module is imported rather than
run as the main program. -/
def importedName : String := "app"

/- ===================== helper lemmas ===================== -/

/-- The application's route table is the singleton root route. -/
theorem app_routes_eq : app.routes = [rootRoute] := rfl

/-- A request with method GET and path `/` matches the registered route. -/
theorem findRoute_root (req : Request) (hm : req.method = methodGet)
    (hp : req.path = rootPath) : findRoute app.routes req = some rootRoute := by
  have hmatch : req.path = rootRoute.path ∧ req.method ∈ rootRoute.methods := by
    refine ⟨hp, ?_⟩
    rw [hm]
    exact List.mem_cons_self _ _
  show (if req.path = rootRoute.path ∧ req.method ∈ rootRoute.methods
      then some rootRoute else findRoute [] req) = some rootRoute
  rw [if_pos hmatch]

/-- A request that is not a GET to `/` matches no registered route. -/
theorem findRoute_miss (req : Request)
    (h : ¬ (req.path = rootPath ∧ req.method = methodGet)) :
    findRoute app.routes req = none := by
  have hne : ¬ (req.path = rootRoute.path ∧ req.method ∈ rootRoute.methods) := by
    intro hc
    refine h ⟨hc.1, ?_⟩
    have hmem : req.method ∈ [methodGet] := hc.2
    simpa using hmem
  show (if req.path = rootRoute.path ∧ req.method ∈ rootRoute.methods
      then some rootRoute else findRoute [] req) = none
  rw [if_neg hne]
  rfl

/-- Dispatching a GET `/` request yields the application's root response. -/
theorem dispatch_hit (req : Request) (hm : req.method = methodGet)
    (hp : req.path = rootPath) : dispatch app req = Reply.app rootResponse := by
  unfold dispatch
  rw [findRoute_root req hm hp]
  rfl

/-- Dispatching any other request falls through to the framework default. -/
theorem dispatch_miss (req : Request)
    (h : ¬ (req.path = rootPath ∧ req.method = methodGet)) :
    dispatch app req = Reply.frameworkDefault req := by
  unfold dispatch
  rw [findRoute_miss req h]

/-- Handling a request never changes the server state. -/
theorem handleStep_state (s : ServerState) (req : Request) :
    (handleStep s req).2 = s := rfl

/- ===================== claim theorems ===================== -/

/-- Claim C1: every valid GET request to `/` is dispatched to an application
response with status 200 whose body is exactly the fixed constant string
(string equality in this embedding is byte-for-byte equality of the UTF-8
data). -/
theorem C1_get_root_status_and_body (req : Request)
    (hm : req.method = methodGet) (hp : req.path = rootPath) :
    dispatch app req = Reply.app rootResponse ∧
    rootResponse.status = 200 ∧
    rootResponse.body = "🎉 Skincare AI Backend is Running!" :=
  ⟨dispatch_hit req hm hp, rfl, rfl⟩

/-- Claim C1 witness: the bare `GET /` request satisfies the hypotheses and
receives status 200 with the fixed body. -/
theorem C1_get_root_status_and_body_witness :
    getRootReq.method = methodGet ∧ getRootReq.path = rootPath ∧
    (dispatch app getRootReq = Reply.app rootResponse ∧
      rootResponse.status = 200 ∧
      rootResponse.body = "🎉 Skincare AI Backend is Running!") :=
  ⟨rfl, rfl, C1_get_root_status_and_body getRootReq rfl rfl⟩

/-- Claim C2: the handler is deterministic and stateless.  Any two
invocations, from arbitrary server states at arbitrary points of the
lifetime, produce the same reply to the same request; and serving any number
of repetitions of the bare `GET /` request yields the identical root reply
every time with the server state unchanged at the end. -/
theorem C2_deterministic_stateless :
    (∀ s₁ s₂ : ServerState, ∀ req : Request,
      (handleStep s₁ req).1 = (handleStep s₂ req).1) ∧
    (∀ n : Nat, ∀ s : ServerState,
      runServer s (List.replicate n getRootReq) =
        (List.replicate n (Reply.app rootResponse), s)) := by
  constructor
  · intro s₁ s₂ req
    rfl
  · intro n
    induction n with
    | zero => intro s; rfl
    | succ k ih =>
        intro s
        simp only [List.replicate_succ, runServer, handleStep,
          dispatch_hit getRootReq rfl rfl, ih s]

/-- Claim C3: the application registers exactly one route — path `/`, method
GET, handler `home` — and every request that is not a GET to `/` is left to
the hosting framework's default behavior. -/
theorem C3_single_route (req : Request)
    (h : ¬ (req.path = rootPath ∧ req.method = methodGet)) :
    app.routes = [rootRoute] ∧
    rootRoute.path = rootPath ∧
    rootRoute.methods = [methodGet] ∧
    rootRoute.handler = Handler.home ∧
    dispatch app req = Reply.frameworkDefault req :=
  ⟨rfl, rfl, rfl, rfl, dispatch_miss req h⟩

/-- Claim C3 witness: `POST /` matches no registered route and is handed to
the framework default. -/
theorem C3_single_route_witness :
    ¬ (postRootReq.path = rootPath ∧ postRootReq.method = methodGet) ∧
    (app.routes = [rootRoute] ∧
      rootRoute.path = rootPath ∧
      rootRoute.methods = [methodGet] ∧
      rootRoute.handler = Handler.home ∧
      dispatch app postRootReq = Reply.frameworkDefault postRootReq) :=
  ⟨by decide, C3_single_route postRootReq (by decide)⟩

/-- Claim C4: the handler reads no part of the request, so any two GET `/`
requests — however their query parameters, headers and bodies differ —
receive identical replies. -/
theorem C4_request_noninterference (r₁ r₂ : Request)
    (hm₁ : r₁.method = methodGet) (hp₁ : r₁.path = rootPath)
    (hm₂ : r₂.method = methodGet) (hp₂ : r₂.path = rootPath) :
    dispatch app r₁ = dispatch app r₂ := by
  rw [dispatch_hit r₁ hm₁ hp₁, dispatch_hit r₂ hm₂ hp₂]

/-- Claim C4 witness: a bare `GET /` and a `GET /` carrying query parameters,
headers and a body receive identical replies. -/
theorem C4_request_noninterference_witness :
    getRootReq.method = methodGet ∧ getRootReq.path = rootPath ∧
    dataRootReq.method = methodGet ∧ dataRootReq.path = rootPath ∧
    dispatch app getRootReq = dispatch app dataRootReq :=
  ⟨rfl, rfl, rfl, rfl,
    C4_request_noninterference getRootReq dataRootReq rfl rfl rfl rfl⟩

/-- Claim C5: the fixed body string contains the celebratory party-popper
emoji and the text identifying the service as running. -/
theorem C5_greeting_content :
    partyChar ∈ greeting.toList ∧ hasSub runningText greeting = true := by
  constructor
  · decide
  · decide

/-- Claim C6: invoking the handler has no observable side effects: one
handling step returns the server state (including the effect log) unchanged,
and serving any request sequence leaves the state exactly as it began. -/
theorem C6_no_side_effects :
    (∀ s : ServerState, ∀ req : Request,
      (handleStep s req).2 = s ∧ (handleStep s req).2.log = s.log) ∧
    (∀ s : ServerState, ∀ reqs : List Request, (runServer s reqs).2 = s) := by
  constructor
  · intro s req
    exact ⟨rfl, rfl⟩
  · intro s reqs
    induction reqs generalizing s with
    | nil => rfl
    | cons r rest ih =>
        simp only [runServer, handleStep]
        exact ih s

/-- Claim C7: the `GET /` response carries the hosting framework's default
content type for a string return — the application sets none itself — and
that default is a text/html (here) or text/plain type. -/
theorem C7_content_type_framework_default (req : Request)
    (hm : req.method = methodGet) (hp : req.path = rootPath) :
    dispatch app req = Reply.app rootResponse ∧
    rootResponse.contentType = flaskDefaultContentType ∧
    (leads textHtml rootResponse.contentType = true ∨
      leads textPlain rootResponse.contentType = true) :=
  ⟨dispatch_hit req hm hp, rfl, Or.inl (by decide)⟩

/-- Claim C7 witness: the bare `GET /` request receives the framework-default
content type, of the text/html family. -/
theorem C7_content_type_framework_default_witness :
    getRootReq.method = methodGet ∧ getRootReq.path = rootPath ∧
    (dispatch app getRootReq = Reply.app rootResponse ∧
      rootResponse.contentType = flaskDefaultContentType ∧
      (leads textHtml rootResponse.contentType = true ∨
        leads textPlain rootResponse.contentType = true)) :=
  ⟨rfl, rfl, C7_content_type_framework_default getRootReq rfl rfl⟩

/-- Claim C8: the entry point reads neither the command line nor the
environment — `moduleMain` is independent of both — and when run as the main
program it launches the server with a configuration whose entire surface is
the debug toggle, set to true. -/
theorem C8_entry_point_config :
    (∀ argv₁ argv₂ : List String, ∀ env₁ env₂ : List (String × String),
      ∀ n : String, moduleMain argv₁ env₁ n = moduleMain argv₂ env₂ n) ∧
    (∀ argv : List String, ∀ env : List (String × String),
      moduleMain argv env mainDunder = some (ServerLaunch.mk true)) ∧
    (∀ l : ServerLaunch, l = ServerLaunch.mk l.debug) := by
  refine ⟨fun _ _ _ _ _ => rfl, fun _ _ => ?_, fun l => ?_⟩
  · unfold moduleMain
    rw [if_pos rfl]
  · cases l
    rfl

/-- Claim C9: the handler is total and never raises: its body is the pure
successful computation of the constant, so no invocation reaches an
exceptional (500-producing) outcome through application code. -/
theorem C9_home_total_no_exception :
    homeBody = Except.ok greeting ∧ raisedExn homeBody = false ∧
    home = greeting :=
  ⟨rfl, rfl, rfl⟩

/-- Claim C10: importing the module constructs the application object with
its single route but does not start the server; `app.run` executes only when
`__name__` equals `"__main__"`. -/
theorem C10_import_does_not_run (n : String) (h : ¬ n = mainDunder) :
    importModule.serverStarted = false ∧
    importModule.app = app ∧
    importModule.app.routes = [rootRoute] ∧
    (runModule n).serverStarted = false ∧
    (runModule mainDunder).serverStarted = true := by
  refine ⟨rfl, rfl, rfl, ?_, ?_⟩
  · unfold runModule
    rw [if_neg h]
    rfl
  · unfold runModule
    rw [if_pos rfl]

/-- Claim C10 witness: with `__name__` set to the imported module's name, the
server is not started, while the main guard starts it. -/
theorem C10_import_does_not_run_witness :
    ¬ importedName = mainDunder ∧
    (importModule.serverStarted = false ∧
      importModule.app = app ∧
      importModule.app.routes = [rootRoute] ∧
      (runModule importedName).serverStarted = false ∧
      (runModule mainDunder).serverStarted = true) :=
  ⟨by decide, C10_import_does_not_run importedName (by decide)⟩
